import Mathlib

/-!
Shallow embedding of the monkey-rs front end (src/src/tokens.rs, src/src/lexer.rs,
src/src/parser/{mod,ast,error}.rs): a character-level tokenizer and a
statement-level parser, together with theorems checking the specification's
claims about them.

Modelling conventions:
- Rust `usize` columns are modelled as `Int` at the one place the source
  subtracts (`new_token`'s `self.col - literal.len()` and the subsequent
  `tok.loc.col -= 1`): a negative model value corresponds exactly to a `usize`
  subtraction overflow in the source (a panic under Rust's overflow checks,
  a wrapped value in release builds). The running `col`/`line` counters of
  the lexer state, which are only ever incremented or reset, stay `Nat`.
- `char::is_alphanumeric` is Unicode-aware in Rust; it is modelled by its
  ASCII fragment (`Char.isAlphanum`), with which it agrees on every ASCII
  character; all inputs considered in this development are ASCII. String
  lengths (`literal.len()`, bytes in Rust) likewise agree with character
  counts on ASCII.
- The source's loops are written as structural recursions on the remaining
  character list; the one genuinely recursive scanner entry point,
  `next_token`, recurses only when it skips a `//` comment, and carries fuel
  for that recursion (each comment-skip consumes at least one character, so
  `iter.length + 1` fuel always suffices; exhaustion yields `none`).
- The parser consumes the lexer through a `Peekable` iterator; since the
  parser is forward-only, its input is modelled as the list of tokens the
  iterator yields, `peek` as `head?` and `next` as popping the head. The
  top-level parse loop carries fuel bounded by the list length: every
  `parse_statement` call consumes at least one token.
-/

namespace MonkeyRs

/-- `TokenType` from src/src/tokens.rs. -/
inductive TokenType where
  | Illegal
  | EOF
  | Identifier
  | Int
  | Float
  | Assign
  | Plus
  | Subtract
  | Divide
  | Multiply
  | Greater
  | GreaterEqual
  | Less
  | LessEqual
  | Not
  | EqualEqual
  | NotEqual
  | Comma
  | SemiColon
  | LParen
  | RParen
  | LBrace
  | RBrace
  | Function
  | Let
  | True
  | False
  | If
  | Else
  | Return
deriving DecidableEq

/-- The string `format!` produces for a `TokenType` via `derive(Debug)`:
the constructor's name. -/
def TokenType.debugStr : TokenType → String
  | .Illegal => "Illegal"
  | .EOF => "EOF"
  | .Identifier => "Identifier"
  | .Int => "Int"
  | .Float => "Float"
  | .Assign => "Assign"
  | .Plus => "Plus"
  | .Subtract => "Subtract"
  | .Divide => "Divide"
  | .Multiply => "Multiply"
  | .Greater => "Greater"
  | .GreaterEqual => "GreaterEqual"
  | .Less => "Less"
  | .LessEqual => "LessEqual"
  | .Not => "Not"
  | .EqualEqual => "EqualEqual"
  | .NotEqual => "NotEqual"
  | .Comma => "Comma"
  | .SemiColon => "SemiColon"
  | .LParen => "LParen"
  | .RParen => "RParen"
  | .LBrace => "LBrace"
  | .RBrace => "RBrace"
  | .Function => "Function"
  | .Let => "Let"
  | .True => "True"
  | .False => "False"
  | .If => "If"
  | .Else => "Else"
  | .Return => "Return"

/-- `TokenLoc` from src/src/tokens.rs; `col` is `usize` in the source, modelled
as `Int` so that a `usize` subtraction overflow shows up as a negative value. -/
structure TokenLoc where
  line : Nat
  col : Int
deriving DecidableEq

/-- `Token` from src/src/tokens.rs. -/
structure Token where
  typ : TokenType
  literal : String
  loc : TokenLoc
deriving DecidableEq

/-- `Token::new` from src/src/tokens.rs. -/
def Token.new (typ : TokenType) (lit : String) (line : Nat) (col : Int) : Token :=
  { typ := typ, literal := lit, loc := { line := line, col := col } }

/-- `Token::from_keyword` from src/src/tokens.rs. -/
def Token.from_keyword (s : String) (line : Nat) (col : Int) : Option Token :=
  if s = "let" then some (Token.new TokenType.Let s line col)
  else if s = "fn" then some (Token.new TokenType.Function s line col)
  else if s = "if" then some (Token.new TokenType.If s line col)
  else if s = "else" then some (Token.new TokenType.Else s line col)
  else if s = "return" then some (Token.new TokenType.Return s line col)
  else if s = "true" then some (Token.new TokenType.True s line col)
  else if s = "false" then some (Token.new TokenType.False s line col)
  else none

/-- `legal_identifier_char` from src/src/lexer.rs: `c.is_alphanumeric() || c == '_'`
(ASCII fragment of Rust's Unicode-aware `is_alphanumeric`). -/
def legal_identifier_char (c : Char) : Bool :=
  c.isAlphanum || c = '_'

/-- `char::is_ascii_whitespace`: space, horizontal tab, line feed, form feed,
carriage return. -/
def isAsciiWhitespace (c : Char) : Bool :=
  c = ' ' || c = '\t' || c = '\n' || c = '\x0c' || c = '\r'

/-- `Lexer` from src/src/lexer.rs: `iter` is the `Peekable<Chars>` cursor
(characters not yet handed to `curr`), the rest of the fields as in the source. -/
structure Lexer where
  iter : List Char
  curr : Char
  complete : Bool
  line : Nat
  col : Nat
deriving DecidableEq

/-- `Lexer::read_char`: pull the next character (or the `'\0'` sentinel when the
iterator is exhausted); a newline resets `col` to 0 and bumps `line`, anything
else bumps `col`. -/
def Lexer.read_char (l : Lexer) : Lexer :=
  let c := l.iter.headD '\x00'
  let rest := l.iter.tail
  if c = '\n' then
    { l with iter := rest, curr := c, col := 0, line := l.line + 1 }
  else
    { l with iter := rest, curr := c, col := l.col + 1 }

/-- `Lexer::new`: start the cursor and read the first character. -/
def Lexer.new (src : String) : Lexer :=
  Lexer.read_char { iter := src.data, curr := '\x00', complete := false, line := 1, col := 0 }

/-- `Lexer::peek_char`: `*self.iter.peek().unwrap_or(&'\0')`. -/
def Lexer.peek_char (l : Lexer) : Char :=
  l.iter.headD '\x00'

/-- `Lexer::new_token`: `Token::new(typ, literal, self.line, self.col - literal.len())`.
The `usize` subtraction is taken in `Int`. -/
def Lexer.new_token (l : Lexer) (typ : TokenType) (lit : String) : Token :=
  Token.new typ lit l.line ((l.col : Int) - (lit.length : Int))

/-- The loop of `Lexer::skip_whitespace`, unfolded over the remaining characters:
while `curr` is ASCII whitespace, `read_char`. Returns the final
(curr, iter, line, col). When the iterator runs out mid-loop, `read_char` sets
`curr` to `'\0'` (not whitespace) and bumps `col`, and the loop exits. -/
def skipWsAux (curr : Char) (iter : List Char) (line col : Nat) :
    Char × List Char × Nat × Nat :=
  if isAsciiWhitespace curr then
    match iter with
    | [] => ('\x00', [], line, col + 1)
    | c :: rest =>
      if c = '\n' then skipWsAux c rest (line + 1) 0
      else skipWsAux c rest line (col + 1)
  else (curr, iter, line, col)

/-- `Lexer::skip_whitespace`. -/
def Lexer.skip_whitespace (l : Lexer) : Lexer :=
  match skipWsAux l.curr l.iter l.line l.col with
  | (c, it, ln, co) => { l with curr := c, iter := it, line := ln, col := co }

/-- The loop of `Lexer::skip_to_next_line`: while `curr` is neither `'\n'` nor
`'\0'`, `read_char`. -/
def skipLineAux (curr : Char) (iter : List Char) (line col : Nat) :
    Char × List Char × Nat × Nat :=
  if curr = '\n' ∨ curr = '\x00' then (curr, iter, line, col)
  else
    match iter with
    | [] => ('\x00', [], line, col + 1)
    | c :: rest =>
      if c = '\n' then skipLineAux c rest (line + 1) 0
      else skipLineAux c rest line (col + 1)

/-- `Lexer::skip_to_next_line`. -/
def Lexer.skip_to_next_line (l : Lexer) : Lexer :=
  match skipLineAux l.curr l.iter l.line l.col with
  | (c, it, ln, co) => { l with curr := c, iter := it, line := ln, col := co }

/-- How the `read_number` loop exited: early return on a second `.`
(the offending `.` is NOT consumed by the source), or the normal loop exit. -/
inductive NumExit where
  | illegalSecondDot (lit : List Char)
  | done (hasPoint : Bool) (lit : List Char)

/-- The loop of `Lexer::read_number`: while `curr` is an ASCII digit or `.`,
check for a second `.` (early return, character left unconsumed), record the
point, append `curr` to the literal, `read_char`. -/
def readNumAux (hasPoint : Bool) (lit : List Char) (curr : Char) (iter : List Char)
    (line col : Nat) : NumExit × Char × List Char × Nat × Nat :=
  if curr.isDigit || curr = '.' then
    if curr = '.' ∧ hasPoint then
      (NumExit.illegalSecondDot lit, curr, iter, line, col)
    else
      let hp := hasPoint || curr = '.'
      let lit' := lit ++ [curr]
      match iter with
      | [] => (NumExit.done hp lit', '\x00', [], line, col + 1)
      | c :: rest =>
        if c = '\n' then readNumAux hp lit' c rest (line + 1) 0
        else readNumAux hp lit' c rest line (col + 1)
  else (NumExit.done hasPoint lit, curr, iter, line, col)

/-- `Lexer::read_number`: run the digit loop, then either emit the `Illegal`
token for a second `.` (literal so far plus the offending `.`), the `Illegal`
token for an empty match, or an `Int`/`Float` token whose column is corrected
by the extra `-1` for the terminating character. -/
def Lexer.read_number (l : Lexer) : Token × Lexer :=
  match readNumAux false [] l.curr l.iter l.line l.col with
  | (NumExit.illegalSecondDot lit, c, it, ln, co) =>
    let l' := { l with curr := c, iter := it, line := ln, col := co }
    (l'.new_token TokenType.Illegal (String.mk (lit ++ ['.'])), l')
  | (NumExit.done hasPoint lit, c, it, ln, co) =>
    let l' := { l with curr := c, iter := it, line := ln, col := co }
    if lit = [] then
      (l'.new_token TokenType.Illegal (String.mk [c]), l')
    else
      let typ := if hasPoint then TokenType.Float else TokenType.Int
      let t := l'.new_token typ (String.mk lit)
      ({ t with loc := { t.loc with col := t.loc.col - 1 } }, l')

/-- The loop of `Lexer::read_identifier`: while `legal_identifier_char curr`,
append `curr` to the literal and `read_char`. -/
def readIdentAux (lit : List Char) (curr : Char) (iter : List Char)
    (line col : Nat) : List Char × Char × List Char × Nat × Nat :=
  if legal_identifier_char curr then
    let lit' := lit ++ [curr]
    match iter with
    | [] => (lit', '\x00', [], line, col + 1)
    | c :: rest =>
      if c = '\n' then readIdentAux lit' c rest (line + 1) 0
      else readIdentAux lit' c rest line (col + 1)
  else (lit, curr, iter, line, col)

/-- `Lexer::read_identifier`: run the loop; an empty match returns an `Illegal`
token for `curr` WITHOUT consuming it; otherwise look the literal up in the
keyword table and apply the `-1` column correction. -/
def Lexer.read_identifier (l : Lexer) : Token × Lexer :=
  match readIdentAux [] l.curr l.iter l.line l.col with
  | (lit, c, it, ln, co) =>
    let l' := { l with curr := c, iter := it, line := ln, col := co }
    if lit = [] then
      (l'.new_token TokenType.Illegal (String.mk [c]), l')
    else
      let tok :=
        match Token.from_keyword (String.mk lit) l'.line ((l'.col : Int) - (lit.length : Int)) with
        | some t => t
        | none => l'.new_token TokenType.Identifier (String.mk lit)
      ({ tok with loc := { tok.loc with col := tok.loc.col - 1 } }, l')

/-- The common tail of `Lexer::next_token`'s symbol arms: build the token
from the current position, then `read_char`. -/
def Lexer.finish_symbol (l : Lexer) (typ : TokenType) (lit : String) : Token × Lexer :=
  (l.new_token typ lit, l.read_char)

/-- `Lexer::next_token`, with fuel for its comment recursion: skip whitespace;
at `'\0'` mark the lexer complete and emit the EOF token; two-character
operators by one-character peek; `//` skips to the next line and recurses;
single-character symbols; digits and `.` go to `read_number`; everything else
to `read_identifier`. Each comment-skip consumes at least one character, so
`iter.length + 1` fuel is always sufficient; `none` means fuel ran out. -/
def Lexer.next_token_fuel : Nat → Lexer → Option (Token × Lexer)
  | 0, _ => none
  | fuel + 1, l0 =>
    let l := l0.skip_whitespace
    if l.curr = '\x00' then
      let l' := { l with complete := true }
      some (l'.new_token TokenType.EOF "", l')
    else if l.curr = '=' then
      some (if l.peek_char = '=' then
        Lexer.finish_symbol l.read_char TokenType.EqualEqual "=="
      else
        Lexer.finish_symbol l TokenType.Assign (String.mk [l.curr]))
    else if l.curr = '!' then
      some (if l.peek_char = '=' then
        Lexer.finish_symbol l.read_char TokenType.NotEqual "!="
      else
        Lexer.finish_symbol l TokenType.Not (String.mk [l.curr]))
    else if l.curr = '>' then
      some (if l.peek_char = '=' then
        Lexer.finish_symbol l.read_char TokenType.GreaterEqual ">="
      else
        Lexer.finish_symbol l TokenType.Greater (String.mk [l.curr]))
    else if l.curr = '<' then
      some (if l.peek_char = '=' then
        Lexer.finish_symbol l.read_char TokenType.LessEqual "<="
      else
        Lexer.finish_symbol l TokenType.Less (String.mk [l.curr]))
    else if l.curr = '/' then
      if l.peek_char = '/' then
        Lexer.next_token_fuel fuel l.skip_to_next_line
      else
        some (Lexer.finish_symbol l TokenType.Divide (String.mk [l.curr]))
    else if l.curr = ',' then some (Lexer.finish_symbol l TokenType.Comma (String.mk [l.curr]))
    else if l.curr = ';' then some (Lexer.finish_symbol l TokenType.SemiColon (String.mk [l.curr]))
    else if l.curr = '+' then some (Lexer.finish_symbol l TokenType.Plus (String.mk [l.curr]))
    else if l.curr = '-' then some (Lexer.finish_symbol l TokenType.Subtract (String.mk [l.curr]))
    else if l.curr = '*' then some (Lexer.finish_symbol l TokenType.Multiply (String.mk [l.curr]))
    else if l.curr = '{' then some (Lexer.finish_symbol l TokenType.LBrace (String.mk [l.curr]))
    else if l.curr = '}' then some (Lexer.finish_symbol l TokenType.RBrace (String.mk [l.curr]))
    else if l.curr = '(' then some (Lexer.finish_symbol l TokenType.LParen (String.mk [l.curr]))
    else if l.curr = ')' then some (Lexer.finish_symbol l TokenType.RParen (String.mk [l.curr]))
    else if l.curr.isDigit || l.curr = '.' then some l.read_number
    else some l.read_identifier

/-- `n` calls of `<Lexer as Iterator>::next`, collecting the tokens produced:
each call yields `next_token()` while `complete` is false and `None` once it
is true. -/
def Lexer.lex_take : Nat → Lexer → List Token
  | 0, _ => []
  | n + 1, l =>
    if l.complete then []
    else
      match Lexer.next_token_fuel (l.iter.length + 1) l with
      | none => []
      | some (t, l') => t :: Lexer.lex_take n l'

/-- The token sequence the lexer yields for `src`, with an iteration budget
that covers every terminating scan of the inputs considered here (the budget
is visible in each concrete result: the list ends with the EOF token, after
which iteration yields nothing). -/
def tokens (src : String) : List Token :=
  Lexer.lex_take (src.length + 2) (Lexer.new src)

/-- `ParseError` from src/src/parser/error.rs. -/
structure ParseError where
  message : String
  loc : Option TokenLoc
deriving DecidableEq

/-- `Expression` from src/src/parser/ast.rs. -/
inductive Expression where
  | Dummy
deriving DecidableEq

/-- `Identifier` from src/src/parser/ast.rs. -/
structure Identifier where
  token : Token
  value : String
deriving DecidableEq

/-- `Statement` from src/src/parser/ast.rs. -/
inductive Statement where
  | LetStatement (token : Token) (identifier : Identifier) (value : Expression)
deriving DecidableEq

/-- `Program` from src/src/parser/ast.rs. -/
structure Program where
  statements : List Statement
  errors : List ParseError
deriving DecidableEq

namespace Parser

/-- `Parser::next`: pop the next token from the peekable lexer; `None` becomes
the "Unexpected end of input" error with no location. Returns the remaining
stream alongside the result. -/
def next (ts : List Token) : Except ParseError Token × List Token :=
  match ts with
  | [] => (Except.error { message := "Unexpected end of input", loc := none }, [])
  | t :: rest => (Except.ok t, rest)

/-- The message of `Parser::expect_next`'s mismatch error:
`format!("expected a '{:?}' token but got '{:?}'", typ, tok.typ)`. -/
def expectedMsg (typ actual : TokenType) : String :=
  "expected a \x27" ++ typ.debugStr ++ "\x27 token but got \x27" ++ actual.debugStr ++ "\x27"

/-- `Parser::expect_next`: take the next token; a wrong type is an error
carrying the offending token's location. -/
def expect_next (typ : TokenType) (ts : List Token) : Except ParseError Token × List Token :=
  match next ts with
  | (Except.error e, rest) => (Except.error e, rest)
  | (Except.ok tok, rest) =>
    if tok.typ ≠ typ then
      (Except.error { message := expectedMsg typ tok.typ, loc := some tok.loc }, rest)
    else
      (Except.ok tok, rest)

/-- The expression-placeholder loop of `Parser::parse_let_statement`:
`while self.next()?.typ != TokenType::SemiColon {}` — consume and discard
tokens up to and including the next semicolon; running out of tokens is the
"Unexpected end of input" error. -/
def skipToSemi : List Token → Except ParseError Unit × List Token
  | [] => (Except.error { message := "Unexpected end of input", loc := none }, [])
  | t :: rest =>
    if t.typ = TokenType.SemiColon then (Except.ok (), rest)
    else skipToSemi rest

/-- `Parser::parse_let_statement`: expect an identifier, expect `=`, discard up
to and including `;`, and build the `LetStatement` with the dummy expression. -/
def parse_let_statement (start : Token) (ts : List Token) :
    Except ParseError Statement × List Token :=
  match expect_next TokenType.Identifier ts with
  | (Except.error e, rest) => (Except.error e, rest)
  | (Except.ok id, rest) =>
    match expect_next TokenType.Assign rest with
    | (Except.error e, rest2) => (Except.error e, rest2)
    | (Except.ok _, rest2) =>
      match skipToSemi rest2 with
      | (Except.error e, rest3) => (Except.error e, rest3)
      | (Except.ok _, rest3) =>
        (Except.ok (Statement.LetStatement start { token := id, value := id.literal } Expression.Dummy),
          rest3)

/-- `Parser::parse_statement`: take one token; `let` dispatches to the
let-statement parser, anything else is the "unexpected token" error carrying
that token's location. -/
def parse_statement (ts : List Token) : Except ParseError Statement × List Token :=
  match next ts with
  | (Except.error e, rest) => (Except.error e, rest)
  | (Except.ok tok, rest) =>
    if tok.typ = TokenType.Let then parse_let_statement tok rest
    else
      (Except.error { message := "unexpected token: " ++ tok.typ.debugStr, loc := some tok.loc },
        rest)

/-- The loop of `Parser::parse`: while the peeked token exists and is not EOF,
parse one statement, appending it (or its error) to the program. Fuel bounds
the iteration count; every `parse_statement` call consumes at least one token,
so fuel equal to the stream length always suffices (`none` = fuel ran out). -/
def parseLoop : Nat → List Token → Program → Option Program
  | _, [], prog => some prog
  | 0, _ :: _, _ => none
  | fuel + 1, t :: rest, prog =>
    if t.typ = TokenType.EOF then some prog
    else
      match parse_statement (t :: rest) with
      | (Except.ok s, rest') =>
        parseLoop fuel rest' { statements := prog.statements ++ [s], errors := prog.errors }
      | (Except.error e, rest') =>
        parseLoop fuel rest' { statements := prog.statements, errors := prog.errors ++ [e] }

/-- `Parser::parse` on a token stream, starting from `Program::default()`. -/
def parse (ts : List Token) : Option Program :=
  parseLoop ts.length ts { statements := [], errors := [] }

end Parser

/-- `Parser::new(Lexer::new(src)).parse()`: the front end end to end. -/
def parseSrc (src : String) : Option Program :=
  Parser.parse (tokens src)

/-- Modelled from the spec (testable property for token locations): the lines
of the source text, split at `'\n'`. -/
def linesOf : List Char → List (List Char)
  | [] => [[]]
  | c :: rest =>
    if c = '\n' then [] :: linesOf rest
    else
      match linesOf rest with
      | [] => [[c]]
      | ln :: ls => (c :: ln) :: ls

/-- Modelled from the spec (testable property for token locations):
reconstruct the substring of `src` at the token's recorded location (1-based
line, 0-based column), of the literal's length, and compare it to the literal.
A negative recorded column never matches. -/
def spec_locMatches (src : String) (t : Token) : Bool :=
  decide (0 ≤ t.loc.col) &&
    List.take t.literal.data.length
        (List.drop t.loc.col.toNat ((linesOf src.data).getD (t.loc.line - 1) []))
      == t.literal.data

/-! ## Helper lemmas -/

/-- On the source `"@"` one call to `next_token` returns the `Illegal "@"` token
and leaves the lexer state completely unchanged: `read_identifier` matches no
character, and its empty-literal branch returns without consuming `curr`. -/
theorem next_token_at_fixpoint :
    Lexer.next_token_fuel ((Lexer.new "@").iter.length + 1) (Lexer.new "@") =
      some (⟨TokenType.Illegal, "@", ⟨1, 0⟩⟩, Lexer.new "@") := by
  decide

/-- One iteration step of the lexer over `"@"`: the same token again, state
unchanged. -/
theorem lex_take_succ_at (n : Nat) :
    Lexer.lex_take (n + 1) (Lexer.new "@") =
      ⟨TokenType.Illegal, "@", ⟨1, 0⟩⟩ :: Lexer.lex_take n (Lexer.new "@") := rfl

/-- Iterating the lexer over `"@"` any number of times yields only copies of
the `Illegal "@"` token: the iterator never completes. -/
theorem lex_take_at (n : Nat) :
    Lexer.lex_take n (Lexer.new "@") =
      List.replicate n (⟨TokenType.Illegal, "@", ⟨1, 0⟩⟩ : Token) := by
  induction n with
  | zero => rfl
  | succ n ih => rw [lex_take_succ_at, ih, List.replicate_succ]

/-- The discard loop only ever fails with the end-of-input error, after
consuming the whole stream. -/
theorem skipToSemi_error {ts rest : List Token} {e : ParseError}
    (h : Parser.skipToSemi ts = (Except.error e, rest)) :
    e = ⟨"Unexpected end of input", none⟩ ∧ rest = [] := by
  induction ts with
  | nil =>
    simp only [Parser.skipToSemi, Prod.mk.injEq, Except.error.injEq] at h
    exact ⟨h.1.symm, h.2.symm⟩
  | cons t rest' ih =>
    simp only [Parser.skipToSemi] at h
    split at h
    · simp at h
    · exact ih h

/-- On a stream with no semicolon the discard loop consumes everything and
reports the end-of-input error. -/
theorem skipToSemi_no_semi :
    ∀ ts : List Token, (∀ u ∈ ts, u.typ ≠ TokenType.SemiColon) →
      Parser.skipToSemi ts = (Except.error ⟨"Unexpected end of input", none⟩, []) := by
  intro ts
  induction ts with
  | nil => intro _; rfl
  | cons t rest ih =>
    intro h
    simp only [Parser.skipToSemi]
    rw [if_neg (h t (List.mem_cons_self t rest))]
    exact ih fun u hu => h u (List.mem_cons_of_mem t hu)

/-- An `expect_next` error without a location is the end-of-input error. -/
theorem expect_next_error_loc {typ : TokenType} {ts rest : List Token} {e : ParseError}
    (h : Parser.expect_next typ ts = (Except.error e, rest)) (hl : e.loc = none) :
    e.message = "Unexpected end of input" := by
  cases ts with
  | nil =>
    simp only [Parser.expect_next, Parser.next, Prod.mk.injEq, Except.error.injEq] at h
    rw [← h.1]
  | cons t rest' =>
    simp only [Parser.expect_next, Parser.next] at h
    split at h
    · simp only [Prod.mk.injEq, Except.error.injEq] at h
      rw [← h.1] at hl
      simp at hl
    · simp at h

/-- A `parse_let_statement` error without a location is the end-of-input
error. -/
theorem parse_let_error_loc {start : Token} {ts rest : List Token} {e : ParseError}
    (h : Parser.parse_let_statement start ts = (Except.error e, rest)) (hl : e.loc = none) :
    e.message = "Unexpected end of input" := by
  unfold Parser.parse_let_statement at h
  split at h
  case _ heq =>
    simp only [Prod.mk.injEq, Except.error.injEq] at h
    exact expect_next_error_loc (h.1 ▸ heq) hl
  case _ heq =>
    split at h
    case _ heq2 =>
      simp only [Prod.mk.injEq, Except.error.injEq] at h
      exact expect_next_error_loc (h.1 ▸ heq2) hl
    case _ =>
      split at h
      case _ heq3 =>
        simp only [Prod.mk.injEq, Except.error.injEq] at h
        have := skipToSemi_error (h.1 ▸ heq3)
        rw [this.1]
      case _ => simp at h

/-- A `parse_statement` error without a location is the end-of-input error:
every other error constructor carries the offending token's location. -/
theorem parse_statement_error_loc {ts rest : List Token} {e : ParseError}
    (h : Parser.parse_statement ts = (Except.error e, rest)) (hl : e.loc = none) :
    e.message = "Unexpected end of input" := by
  cases ts with
  | nil =>
    simp only [Parser.parse_statement, Parser.next, Prod.mk.injEq, Except.error.injEq] at h
    rw [← h.1]
  | cons t rest' =>
    simp only [Parser.parse_statement, Parser.next] at h
    split at h
    · exact parse_let_error_loc h hl
    · simp only [Prod.mk.injEq, Except.error.injEq] at h
      rw [← h.1] at hl
      simp at hl

/-- The parse loop preserves the invariant that an error without a location
carries the end-of-input message. -/
theorem parseLoop_error_loc :
    ∀ (fuel : Nat) (ts : List Token) (prog p : Program),
      Parser.parseLoop fuel ts prog = some p →
      (∀ e ∈ prog.errors, e.loc = none → e.message = "Unexpected end of input") →
      ∀ e ∈ p.errors, e.loc = none → e.message = "Unexpected end of input" := by
  intro fuel
  induction fuel with
  | zero =>
    intro ts prog p h hinv
    cases ts with
    | nil =>
      simp only [Parser.parseLoop, Option.some.injEq] at h
      exact h ▸ hinv
    | cons t rest => simp [Parser.parseLoop] at h
  | succ n ih =>
    intro ts prog p h hinv
    cases ts with
    | nil =>
      simp only [Parser.parseLoop, Option.some.injEq] at h
      exact h ▸ hinv
    | cons t rest =>
      simp only [Parser.parseLoop] at h
      split at h
      · simp only [Option.some.injEq] at h
        exact h ▸ hinv
      · split at h
        case _ s rest' heq => exact ih rest' _ p h hinv
        case _ e' rest' heq =>
          refine ih rest' _ p h ?_
          intro e he hl
          rcases List.mem_append.mp he with hmem | hmem
          · exact hinv e hmem hl
          · rw [List.mem_singleton.mp hmem] at hl ⊢
            exact parse_statement_error_loc heq hl

/-- A non-`let` token at statement position is consumed and reported as the
"unexpected token" error carrying its location, leaving the rest of the stream
untouched. -/
theorem parse_statement_other (t : Token) (rest : List Token)
    (h : ¬ t.typ = TokenType.Let) :
    Parser.parse_statement (t :: rest) =
      (Except.error ⟨"unexpected token: " ++ t.typ.debugStr, some t.loc⟩, rest) := by
  simp [Parser.parse_statement, Parser.next, h]

/-- The error `parse_statement` reports for an unexpected token. -/
def unexpectedErr (u : Token) : ParseError :=
  ⟨"unexpected token: " ++ u.typ.debugStr, some u.loc⟩

/-- Running the parse loop over a stream of tokens that are neither `let` nor
EOF: each is consumed singly and reported, statements untouched. -/
theorem parseLoop_unexpected :
    ∀ (l : List Token) (fuel : Nat) (prog : Program),
      (∀ u ∈ l, u.typ ≠ TokenType.Let ∧ u.typ ≠ TokenType.EOF) →
      l.length ≤ fuel →
      Parser.parseLoop fuel l prog =
        some ⟨prog.statements, prog.errors ++ l.map unexpectedErr⟩ := by
  intro l
  induction l with
  | nil =>
    intro fuel prog _ _
    cases fuel <;> simp [Parser.parseLoop]
  | cons u l ih =>
    intro fuel prog h hf
    cases fuel with
    | zero => simp at hf
    | succ n =>
      have hu := h u (List.mem_cons_self u l)
      have hlen : l.length ≤ n := by
        simp only [List.length_cons] at hf
        omega
      simp only [Parser.parseLoop]
      rw [if_neg hu.2]
      simp only [parse_statement_other u l hu.1]
      rw [ih n _ (fun v hv => h v (List.mem_cons_of_mem u hv)) hlen]
      simp [unexpectedErr, List.append_assoc]

/-- As `parseLoop_unexpected`, for a stream of such tokens followed by the EOF
token, at which the loop stops. -/
theorem parseLoop_unexpected_eof :
    ∀ (l : List Token) (fuel : Nat) (prog : Program) (te : Token),
      (∀ u ∈ l, u.typ ≠ TokenType.Let ∧ u.typ ≠ TokenType.EOF) →
      te.typ = TokenType.EOF →
      l.length + 1 ≤ fuel →
      Parser.parseLoop fuel (l ++ [te]) prog =
        some ⟨prog.statements, prog.errors ++ l.map unexpectedErr⟩ := by
  intro l
  induction l with
  | nil =>
    intro fuel prog te _ hte hf
    cases fuel with
    | zero => simp at hf
    | succ n => simp [Parser.parseLoop, hte]
  | cons u l ih =>
    intro fuel prog te h hte hf
    cases fuel with
    | zero => simp at hf
    | succ n =>
      have hu := h u (List.mem_cons_self u l)
      have hlen : l.length + 1 ≤ n := by
        simp only [List.length_cons] at hf
        omega
      rw [List.cons_append]
      simp only [Parser.parseLoop]
      rw [if_neg hu.2]
      simp only [parse_statement_other u (l ++ [te]) hu.1]
      rw [ih n _ te (fun v hv => h v (List.mem_cons_of_mem u hv)) hte hlen]
      simp [unexpectedErr, List.append_assoc]

/-! ## Claim theorems -/

/-- C1: the claim says that for every source text, iterating the tokenizer
yields a finite sequence terminated by exactly one end-of-input token. The
code refutes it: on the source `"@"` (a character that is no recognized
symbol, not a digit or `.`, and not alphanumeric or `_`), `read_identifier`
returns an `Illegal` token without consuming the character, so every
iteration yields the same `Illegal "@"` token and the end-of-input token is
never produced — the sequence is infinite. -/
theorem c1_illegal_char_loops_forever (n : Nat) :
    Lexer.lex_take n (Lexer.new "@") =
        List.replicate n (⟨TokenType.Illegal, "@", ⟨1, 0⟩⟩ : Token) ∧
      (Lexer.lex_take n (Lexer.new "@")).all (fun t => !(t.typ == TokenType.EOF)) = true := by
  refine ⟨lex_take_at n, ?_⟩
  rw [lex_take_at n, List.all_eq_true]
  intro t ht
  rw [List.eq_of_mem_replicate ht]
  rfl

/-- Witness for C1 at the concrete budget 3. -/
theorem c1_illegal_char_loops_forever_witness :
    Lexer.lex_take 3 (Lexer.new "@") =
        List.replicate 3 (⟨TokenType.Illegal, "@", ⟨1, 0⟩⟩ : Token) ∧
      (Lexer.lex_take 3 (Lexer.new "@")).all (fun t => !(t.typ == TokenType.EOF)) = true :=
  c1_illegal_char_loops_forever 3

/-- C2: the claim says no token-construction step panics, including the column
computations for tokens terminated by a newline. The code refutes it: on the
source `"a\n"` the newline that terminates the identifier has already reset
`col` to 0 (and bumped `line`) when `new_token` computes
`self.col - literal.len()`, so the `usize` subtraction overflows — a panic
under Rust's overflow checks (debug and test builds). In this embedding the
subtraction is taken in `Int` and the overflow appears as the negative
recorded column `-2`. -/
theorem c2_newline_terminated_token_col_underflows :
    tokens "a\n" = [⟨TokenType.Identifier, "a", ⟨2, -2⟩⟩, ⟨TokenType.EOF, "", ⟨2, 1⟩⟩] ∧
      (tokens "a\n").any (fun t => decide (t.loc.col < 0)) = true := by
  decide

/-- C3: the claim says every non-end-of-input token's recorded location is the
position of the first character of its literal. The code refutes it: on the
source `"a\nb"` the token for `a` is recorded at line 2 with column `-2` (the
underflowed `usize` arithmetic), while the first character of its literal sits
at line 1, column 0; the filter exhibits it as exactly the token failing the
spec's reconstruct-the-substring check. -/
theorem c3_location_wrong_after_newline :
    tokens "a\nb" =
        [⟨TokenType.Identifier, "a", ⟨2, -2⟩⟩, ⟨TokenType.Identifier, "b", ⟨2, 0⟩⟩,
          ⟨TokenType.EOF, "", ⟨2, 2⟩⟩] ∧
      (tokens "a\nb").filter
          (fun t => !(t.typ == TokenType.EOF) && !(spec_locMatches "a\nb" t)) =
        [⟨TokenType.Identifier, "a", ⟨2, -2⟩⟩] := by
  decide

/-- C4 counterexample: the claim says parsing `"let = 5;"` yields exactly one
error; the code produces three (the parser resumes at the token after the
failure point, so the `5` and the `;` are each reported as an unexpected
statement start). -/
theorem c4_let_eq_counterexample :
    parseSrc "let = 5;" =
        some ⟨[],
          [⟨"expected a \x27Identifier\x27 token but got \x27Assign\x27", some ⟨1, 4⟩⟩,
            ⟨"unexpected token: Int", some ⟨1, 6⟩⟩,
            ⟨"unexpected token: SemiColon", some ⟨1, 7⟩⟩]⟩ ∧
      [⟨"expected a \x27Identifier\x27 token but got \x27Assign\x27", some ⟨1, 4⟩⟩,
        ⟨"unexpected token: Int", some ⟨1, 6⟩⟩,
        (⟨"unexpected token: SemiColon", some ⟨1, 7⟩⟩ : ParseError)].length ≠ 1 := by
  decide

/-- C4 as amended: parsing `"let = 5;"` yields a Program with zero statements
and exactly three errors; the first error's location `(1, 4)` is the position
of the `=` token and its message names the expected kind as `Identifier`; the
remaining two report the `Int` and `SemiColon` tokens the parser re-inspects
at the top level after the failure. -/
theorem c4_let_eq_three_errors :
    parseSrc "let = 5;" =
        some ⟨[],
          [⟨"expected a \x27Identifier\x27 token but got \x27Assign\x27", some ⟨1, 4⟩⟩,
            ⟨"unexpected token: Int", some ⟨1, 6⟩⟩,
            ⟨"unexpected token: SemiColon", some ⟨1, 7⟩⟩]⟩ ∧
      (tokens "let = 5;").get? 1 = some ⟨TokenType.Assign, "=", ⟨1, 4⟩⟩ := by
  decide

/-- C5 counterexample: the claim says that after the `Illegal "1.2."` token,
tokenization resumes at `"3"` and produces an `Int` token; the code refutes
it — no `Int` token is produced at all, because the offending second `.` is
left unconsumed and starts the next scan. -/
theorem c5_counterexample_no_int_token :
    tokens "1.2.3" =
        [⟨TokenType.Illegal, "1.2.", ⟨1, 0⟩⟩, ⟨TokenType.Float, ".3", ⟨1, 3⟩⟩,
          ⟨TokenType.EOF, "", ⟨1, 6⟩⟩] ∧
      (tokens "1.2.3").all (fun t => !(t.typ == TokenType.Int)) = true := by
  decide

/-- C5 as amended: tokenizing `"1.2.3"` yields exactly one `Illegal` token with
literal `"1.2."` (everything matched so far plus the offending second `.`);
that `.` is not consumed, so tokenization resumes at it and produces a `Float`
token with literal `".3"`, then the end-of-input token. -/
theorem c5_illegal_then_float :
    tokens "1.2.3" =
        [⟨TokenType.Illegal, "1.2.", ⟨1, 0⟩⟩, ⟨TokenType.Float, ".3", ⟨1, 3⟩⟩,
          ⟨TokenType.EOF, "", ⟨1, 6⟩⟩] ∧
      ((tokens "1.2.3").filter (fun t => t.typ == TokenType.Illegal)).length = 1 := by
  decide

/-- C6: the claim says a single `parse()` call terminates for every source
text. The code refutes it: on the source `"@"` the lexer yields the same
`Illegal` token forever (never the EOF token), so for every iteration budget
`n` the top-level loop has consumed `n` tokens, collected `n` errors and made
no progress toward its only exit conditions (an EOF token or an exhausted
iterator) — `parse()` never returns. -/
theorem c6_parse_never_reaches_eof (n : Nat) :
    Parser.parse (Lexer.lex_take n (Lexer.new "@")) =
      some ⟨[], List.replicate n ⟨"unexpected token: Illegal", some ⟨1, 0⟩⟩⟩ := by
  rw [lex_take_at]
  unfold Parser.parse
  rw [parseLoop_unexpected (List.replicate n (⟨TokenType.Illegal, "@", ⟨1, 0⟩⟩ : Token)) _ _
    (fun u hu => by rw [List.eq_of_mem_replicate hu]; exact ⟨by decide, by decide⟩)
    (by rw [List.length_replicate])]
  rw [List.map_replicate]
  rfl

/-- Witness for C6 at the concrete budget 3. -/
theorem c6_parse_never_reaches_eof_witness :
    Parser.parse (Lexer.lex_take 3 (Lexer.new "@")) =
      some ⟨[], List.replicate 3 ⟨"unexpected token: Illegal", some ⟨1, 0⟩⟩⟩ :=
  c6_parse_never_reaches_eof 3

/-- C7: parsing `"let x = 5; let y = 10;"` yields a Program with exactly two
`LetStatement`s in source order — identifier `"x"` first, then `"y"` — and
zero errors. -/
theorem c7_two_let_statements :
    parseSrc "let x = 5; let y = 10;" =
      some ⟨[Statement.LetStatement ⟨TokenType.Let, "let", ⟨1, 0⟩⟩
                ⟨⟨TokenType.Identifier, "x", ⟨1, 4⟩⟩, "x"⟩ Expression.Dummy,
              Statement.LetStatement ⟨TokenType.Let, "let", ⟨1, 11⟩⟩
                ⟨⟨TokenType.Identifier, "y", ⟨1, 15⟩⟩, "y"⟩ Expression.Dummy],
        []⟩ := by
  decide

/-- C8 counterexample: the claim spells the end-of-input message
`"unexpected end of input"`; the code produces `"Unexpected end of input"`
(capital `U`), as parsing `"let x = 5"` shows. -/
theorem c8_counterexample_message_case :
    parseSrc "let x = 5" = some ⟨[], [⟨"Unexpected end of input", none⟩]⟩ ∧
      "Unexpected end of input" ≠ "unexpected end of input" := by
  decide

/-- C8 as amended: when a let-statement's discard loop meets end-of-input
before a terminating `;` (a semicolon-free remainder of the stream), the
parser produces the ParseError with message `"Unexpected end of input"`
(capital `U`) and no location; and in any parse result, an error's location is
absent only for that end-of-input error. -/
theorem c8_eoi_error_shape (ts : List Token)
    (hsemi : ∀ u ∈ ts, u.typ ≠ TokenType.SemiColon)
    (ts2 : List Token) (p : Program) (e : ParseError)
    (hp : Parser.parse ts2 = some p) (he : e ∈ p.errors) (hloc : e.loc = none) :
    Parser.skipToSemi ts = (Except.error ⟨"Unexpected end of input", none⟩, []) ∧
      e.message = "Unexpected end of input" := by
  refine ⟨skipToSemi_no_semi ts hsemi, ?_⟩
  exact parseLoop_error_loc ts2.length ts2 ⟨[], []⟩ p hp (by simp) e he hloc

/-- Witness for C8: the semicolon-free tail of `"let x = 5"` after its `=`
token, and the end-of-input error that parsing `"let x = 5"` actually
produces. -/
theorem c8_eoi_error_shape_witness :
    Parser.parse (tokens "let x = 5") = some ⟨[], [⟨"Unexpected end of input", none⟩]⟩ ∧
      (Parser.skipToSemi [⟨TokenType.Int, "5", ⟨1, 8⟩⟩, ⟨TokenType.EOF, "", ⟨1, 10⟩⟩] =
          (Except.error ⟨"Unexpected end of input", none⟩, []) ∧
        ParseError.message ⟨"Unexpected end of input", none⟩ = "Unexpected end of input") :=
  ⟨by decide,
    c8_eoi_error_shape [⟨TokenType.Int, "5", ⟨1, 8⟩⟩, ⟨TokenType.EOF, "", ⟨1, 10⟩⟩]
      (by decide) (tokens "let x = 5") ⟨[], [⟨"Unexpected end of input", none⟩]⟩
      ⟨"Unexpected end of input", none⟩ (by decide) (by decide) (by decide)⟩

/-- C9: the claim says concatenating the token literals (with skipped
whitespace reinserted — there is none here) reconstructs the source with no
character dropped or duplicated. The code refutes it: the offending second
`.` of `"1.2.3"` appears both at the end of the `Illegal` literal `"1.2."`
and, being left unconsumed, again at the start of the following `Float`
literal `".3"`, so the concatenation is `"1.2..3"`. -/
theorem c9_literal_concat_duplicates_dot :
    ((tokens "1.2.3").map Token.literal).foldl (fun a b => a ++ b) "" = "1.2..3" ∧
      "1.2..3" ≠ "1.2.3" := by
  decide

/-- C10: whenever the token at the top-level parse loop is neither `let` nor
end-of-input, the parser consumes exactly that one token and appends exactly
one error naming the token's kind and carrying its location; consequently a
stream of such tokens followed by end-of-input parses to zero statements and
one error per token, in order. -/
theorem c10_unexpected_token_recovery (t : Token) (rest : List Token)
    (h1 : t.typ ≠ TokenType.Let) (_h2 : t.typ ≠ TokenType.EOF)
    (l : List Token) (h3 : ∀ u ∈ l, u.typ ≠ TokenType.Let ∧ u.typ ≠ TokenType.EOF)
    (te : Token) (h4 : te.typ = TokenType.EOF) :
    Parser.parse_statement (t :: rest) =
        (Except.error ⟨"unexpected token: " ++ t.typ.debugStr, some t.loc⟩, rest) ∧
      Parser.parse (l ++ [te]) = some ⟨[], l.map unexpectedErr⟩ := by
  refine ⟨parse_statement_other t rest h1, ?_⟩
  unfold Parser.parse
  rw [parseLoop_unexpected_eof l _ _ te h3 h4 (by simp)]
  simp

/-- Witness for C10: an `Int` token and a `SemiColon` token before
end-of-input yield exactly two unexpected-token errors and no statements. -/
theorem c10_unexpected_token_recovery_witness :
    Parser.parse_statement [⟨TokenType.Int, "5", ⟨1, 0⟩⟩] =
        (Except.error ⟨"unexpected token: Int", some ⟨1, 0⟩⟩, []) ∧
      Parser.parse
          [⟨TokenType.Int, "5", ⟨1, 0⟩⟩, ⟨TokenType.SemiColon, ";", ⟨1, 1⟩⟩,
            ⟨TokenType.EOF, "", ⟨1, 2⟩⟩] =
        some ⟨[],
          [⟨"unexpected token: Int", some ⟨1, 0⟩⟩,
            ⟨"unexpected token: SemiColon", some ⟨1, 1⟩⟩]⟩ := by
  have h := c10_unexpected_token_recovery ⟨TokenType.Int, "5", ⟨1, 0⟩⟩ []
    (by decide) (by decide)
    [⟨TokenType.Int, "5", ⟨1, 0⟩⟩, ⟨TokenType.SemiColon, ";", ⟨1, 1⟩⟩]
    (by decide) ⟨TokenType.EOF, "", ⟨1, 2⟩⟩ (by decide)
  refine ⟨h.1, ?_⟩
  have h2 := h.2
  simp only [List.cons_append, List.nil_append] at h2
  rw [h2]
  rfl

end MonkeyRs
